import Mathlib

/-!
Verification of the photobooth capture-crop-and-layout pipeline.

The definitions below are a shallow embedding of the arithmetic core of the
repository's `Camera` component (`src/app/photo/_components/Camera.tsx`, with
the fixed-layout variants in `src/unnamed/part_000` and `src/unnamed/part_002`).
All geometry the source computes with JavaScript numbers is modelled over ℚ;
the source's formulas involve only ratios of the inputs, so exact rational
arithmetic is the idealised semantics the spec's "within floating-point
tolerance" phrasing refers to.  The source's `string | null` returns become
`Option`, and the early `return` guards of `generatePdf` become
`Except LayoutError`.
-/

/-- A source crop rectangle, as computed inside `capturePhoto`
(`Camera.tsx` lines 83-99): `srcX`, `srcY`, `srcW`, `srcH`. -/
structure CropRect where
  srcX : ℚ
  srcY : ℚ
  srcW : ℚ
  srcH : ℚ
deriving DecidableEq, Repr

/-- The crop computation of `capturePhoto` (`Camera.tsx` lines 73-99,
identically `src/unnamed/part_000` lines 83-102): compute the video and
target aspect ratios, then crop sides (video wider), crop top/bottom
(video taller), or keep the whole frame (equal aspect).  The target
dimensions are the source's `TARGET_WIDTH`/`TARGET_HEIGHT` constants,
taken here as parameters (600×450 in `Camera.tsx`, 400×300 in the
`part_000`/`part_002` variants). -/
def captureCrop (vidW vidH targetW targetH : ℚ) : CropRect :=
  let targetAspect := targetW / targetH
  let videoAspect := vidW / vidH
  if videoAspect > targetAspect then
    let desiredWidth := vidH * targetAspect
    ⟨(vidW - desiredWidth) / 2, 0, desiredWidth, vidH⟩
  else if videoAspect < targetAspect then
    let desiredHeight := vidW / targetAspect
    ⟨0, (vidH - desiredHeight) / 2, vidW, desiredHeight⟩
  else
    ⟨0, 0, vidW, vidH⟩

/-- The refs `capturePhoto` reads before computing anything: the video
element, the canvas element, its 2d context, and the video's reported
native dimensions. -/
structure CameraRefs where
  hasVideo : Bool
  hasCanvas : Bool
  hasCtx : Bool
  vidW : ℚ
  vidH : ℚ

/-- `capturePhoto` (`Camera.tsx` lines 63-115): returns `null` (here `none`)
when the video ref, canvas ref or 2d context is missing, and otherwise
draws the computed crop rectangle onto the target-sized canvas and encodes
it.  The returned value is the crop rectangle actually drawn; note the
source performs no check on `videoWidth`/`videoHeight` before the aspect
division. -/
def capturePhoto (refs : CameraRefs) (targetW targetH : ℚ) : Option CropRect :=
  if !refs.hasVideo || !refs.hasCanvas then none
  else if !refs.hasCtx then none
  else some (captureCrop refs.vidW refs.vidH targetW targetH)

/-- An image as loaded by `generatePdf` to learn its intrinsic dimensions
(`Camera.tsx` lines 167-185): the data URL (an opaque payload id here) and
the natural pixel width and height. -/
structure LoadedImage where
  data : ℕ
  width : ℚ
  height : ℚ
deriving DecidableEq, Repr

/-- One image placement on the page, as passed to `doc.addImage`
(`Camera.tsx` line 210): payload, x, y, width, height in mm. -/
structure Placement where
  data : ℕ
  x : ℚ
  y : ℚ
  w : ℚ
  h : ℚ
deriving DecidableEq, Repr

/-- The computed page: the jsPDF format `[pageWidth, pageHeight]` plus the
ordered placements added to the document. -/
structure PageDocument where
  pageWidth : ℚ
  pageHeight : ℚ
  placements : List Placement
deriving DecidableEq, Repr

/-- The spec's layout error taxonomy, restricted to the condition the source
actually guards on: `generatePdf` returns without producing a document when
`photos.length !== 3` (`Camera.tsx` line 159). -/
inductive LayoutError where
  | IncompleteInput
deriving DecidableEq, Repr

/-- Dimension conversion of `generatePdf` (`Camera.tsx` lines 188-192):
pixel dimensions are multiplied by the px→mm `conversionFactor` and by the
uniform `scaleFactor`, width and height alike. -/
def scaledDims (conversionFactor scaleFactor : ℚ) (img : LoadedImage) : ℚ × ℚ :=
  (img.width * conversionFactor * scaleFactor,
   img.height * conversionFactor * scaleFactor)

/-- The layout computation of `generatePdf` (`Camera.tsx` lines 158-217).
The source fixes `scaleFactor = 0.3`, `conversionFactor = 0.264583`,
`marginH = marginV = 10` as local constants; they are parameters here, the
spec's `LayoutSpec`.  The `photos.length !== 3` guard returns without a
document (`IncompleteInput`); the list combinators of the source
(`Math.max(...)`, `reduce`, the placement loop with `currentY`) are
specialised to the three-element list the guard admits. -/
def generatePdf (scaleFactor conversionFactor marginH marginV : ℚ)
    (images : List LoadedImage) : Except LayoutError PageDocument :=
  match images with
  | [i1, i2, i3] =>
    let d1 := scaledDims conversionFactor scaleFactor i1
    let d2 := scaledDims conversionFactor scaleFactor i2
    let d3 := scaledDims conversionFactor scaleFactor i3
    let additionalGap := d1.2 / 2
    let maxWidthMM := max (max d1.1 d2.1) d3.1
    let totalImageHeight := d1.2 + d2.2 + d3.2
    let pageWidth := maxWidthMM + marginH * 2
    let pageHeight := totalImageHeight + marginV * (3 + 1) + additionalGap
    let y1 := marginV
    let y2 := y1 + d1.2 + marginV
    let y3 := y2 + d2.2 + marginV
    Except.ok ⟨pageWidth, pageHeight,
      [⟨i1.data, marginH + (maxWidthMM - d1.1) / 2, y1, d1.1, d1.2⟩,
       ⟨i2.data, marginH + (maxWidthMM - d2.1) / 2, y2, d2.1, d2.2⟩,
       ⟨i3.data, marginH + (maxWidthMM - d3.1) / 2, y3, d3.1, d3.2⟩]⟩
  | _ => Except.error LayoutError.IncompleteInput

/-- The constants of `generatePdf` in `Camera.tsx` lines 161-164. -/
def scaleFactor : ℚ := 3 / 10

/-- px→mm conversion, `0.264583` (`Camera.tsx` line 162, and the `pxToMm`
helper of `part_000`/`part_002`). -/
def conversionFactor : ℚ := 264583 / 1000000

/-- Horizontal margin, mm (`Camera.tsx` line 163). -/
def marginH : ℚ := 10

/-- Vertical margin, mm (`Camera.tsx` line 164). -/
def marginV : ℚ := 10

/-- `pxToMm` of `src/unnamed/part_000` line 7 and `part_002` line 7. -/
def pxToMm (px : ℚ) : ℚ := px * (264583 / 1000000)

/-- `generatePdf` of `src/unnamed/part_002` (lines 196-260): fixed 240×600 px
page, the three photos placed at x = 20 px, y ∈ {20, 190, 360} px, each
200×150 px, all converted with `pxToMm`; the decorative bottom image, when
its data URL has loaded, is appended at (20, 530) px with fixed size
200×50 px, and is simply omitted (after a console diagnostic) when not. -/
def generatePdfWithBottom (photos : List ℕ) (bottomImageUrl : Option ℕ) :
    Except LayoutError PageDocument :=
  match photos with
  | [p1, p2, p3] =>
    let pdfWidthPx : ℚ := 240
    let pdfHeightPx : ℚ := 600
    let xPosPx : ℚ := 20
    let photoWidth : ℚ := 200
    let photoHeight : ℚ := 150
    let photoPlacements : List Placement :=
      [⟨p1, pxToMm xPosPx, pxToMm 20, pxToMm photoWidth, pxToMm photoHeight⟩,
       ⟨p2, pxToMm xPosPx, pxToMm 190, pxToMm photoWidth, pxToMm photoHeight⟩,
       ⟨p3, pxToMm xPosPx, pxToMm 360, pxToMm photoWidth, pxToMm photoHeight⟩]
    let placements :=
      match bottomImageUrl with
      | some b => photoPlacements ++ [⟨b, pxToMm xPosPx, pxToMm 530, pxToMm 200, pxToMm 50⟩]
      | none => photoPlacements
    Except.ok ⟨pxToMm pdfWidthPx, pxToMm pdfHeightPx, placements⟩
  | _ => Except.error LayoutError.IncompleteInput

/-- One iteration of the capture loop in `takePhotosWithCountdown`
(`Camera.tsx` lines 142-150): if `capturePhoto` returned a data URL the
photo is appended, otherwise the sequence is left unchanged. -/
def captureStep (photos : List ℕ) (result : Option ℕ) : List ℕ :=
  match result with
  | some dataUrl => photos ++ [dataUrl]
  | none => photos

/-- `takePhotosWithCountdown` (`Camera.tsx` lines 136-152), abstracted over
the outcome of each of the loop's `capturePhoto` calls: the sequence is
reset to `[]` and the capture results are folded in order. -/
def takePhotosWithCountdown (results : List (Option ℕ)) : List ℕ :=
  List.foldl captureStep [] results

/-- Every intermediate value of the photo sequence during
`takePhotosWithCountdown`, starting from the empty sequence. -/
def sessionStates (results : List (Option ℕ)) : List (List ℕ) :=
  List.scanl captureStep [] results

/-- The auto-generate effect (`Camera.tsx` lines 220-225): the layout engine
is invoked exactly when `photos.length === 3` and no PDF URL exists yet.
`loadDims` models decoding a data URL to its intrinsic pixel size. -/
def pdfAutoEffect (loadDims : ℕ → ℚ × ℚ) (photos : List ℕ) (pdfUrl : Option ℕ) :
    Option (Except LayoutError PageDocument) :=
  if photos.length = 3 ∧ pdfUrl = none then
    some (generatePdf scaleFactor conversionFactor marginH marginV
      (photos.map fun d => ⟨d, (loadDims d).1, (loadDims d).2⟩))
  else none

/-- Claim C1: for positive video and target dimensions, the crop rectangle
preserves the target aspect ratio (`srcW/srcH = targetW/targetH`) and lies
inside the native frame (`0 ≤ srcX`, `srcX + srcW ≤ vidW`, `0 ≤ srcY`,
`srcY + srcH ≤ vidH`), in all three branches. -/
theorem captureCrop_in_bounds (vidW vidH targetW targetH : ℚ)
    (hw : 0 < vidW) (hh : 0 < vidH) (htw : 0 < targetW) (hth : 0 < targetH) :
    (captureCrop vidW vidH targetW targetH).srcW /
        (captureCrop vidW vidH targetW targetH).srcH = targetW / targetH ∧
    0 ≤ (captureCrop vidW vidH targetW targetH).srcX ∧
    (captureCrop vidW vidH targetW targetH).srcX +
        (captureCrop vidW vidH targetW targetH).srcW ≤ vidW ∧
    0 ≤ (captureCrop vidW vidH targetW targetH).srcY ∧
    (captureCrop vidW vidH targetW targetH).srcY +
        (captureCrop vidW vidH targetW targetH).srcH ≤ vidH := by
  unfold captureCrop
  dsimp only
  split_ifs with hgt hlt
  · -- video wider than target: crop the sides
    have hkey : vidH * (targetW / targetH) < vidW := by
      have h1 : targetW * vidH < vidW * targetH := (div_lt_div_iff₀ hth hh).mp hgt
      rw [mul_div_assoc']
      exact (div_lt_iff₀ hth).mpr (by linarith [h1])
    refine ⟨?_, ?_, ?_, ?_, ?_⟩
    · simp only
      exact mul_div_cancel_left₀ _ hh.ne'
    · simp only
      linarith
    · simp only
      linarith
    · simp only
      exact le_refl 0
    · simp only
      linarith
  · -- video taller than target: crop top and bottom
    have hta : (0 : ℚ) < targetW / targetH := div_pos htw hth
    have hkey : vidW / (targetW / targetH) < vidH := by
      have h1 : vidW * targetH < targetW * vidH := (div_lt_div_iff₀ hh hth).mp hlt
      rw [div_div_eq_mul_div]
      exact (div_lt_iff₀ htw).mpr (by linarith [h1])
    have hpos : 0 < vidW / (targetW / targetH) := div_pos hw hta
    refine ⟨?_, ?_, ?_, ?_, ?_⟩
    · simp only
      rw [div_div_eq_mul_div]
      exact mul_div_cancel_left₀ _ hw.ne'
    · simp only
      exact le_refl 0
    · simp only
      linarith
    · simp only
      linarith
    · simp only
      linarith
  · -- equal aspect ratios: no cropping
    have heq : vidW / vidH = targetW / targetH := le_antisymm (not_lt.mp hgt) (not_lt.mp hlt)
    refine ⟨heq, le_refl 0, ?_, le_refl 0, ?_⟩ <;> simp

/-- Claim C1 witness: the bounds at `vidW = 1920`, `vidH = 1080`,
target `600×450`. -/
theorem captureCrop_in_bounds_witness :
    ((0 : ℚ) < 1920 ∧ (0 : ℚ) < 1080 ∧ (0 : ℚ) < 600 ∧ (0 : ℚ) < 450) ∧
    ((captureCrop 1920 1080 600 450).srcW /
        (captureCrop 1920 1080 600 450).srcH = 600 / 450 ∧
    0 ≤ (captureCrop 1920 1080 600 450).srcX ∧
    (captureCrop 1920 1080 600 450).srcX +
        (captureCrop 1920 1080 600 450).srcW ≤ 1920 ∧
    0 ≤ (captureCrop 1920 1080 600 450).srcY ∧
    (captureCrop 1920 1080 600 450).srcY +
        (captureCrop 1920 1080 600 450).srcH ≤ 1080) :=
  ⟨by norm_num,
   captureCrop_in_bounds 1920 1080 600 450 (by norm_num) (by norm_num)
     (by norm_num) (by norm_num)⟩

/-- Claim C8: capturing with `vidW = 1280`, `vidH = 720` and target `400×300`
takes the wider-source branch and yields exactly `srcW = 960`, `srcX = 160`,
`srcH = 720`, `srcY = 0` (the `part_000` capture pipeline with all refs
available). -/
theorem capturePhoto_1280x720_400x300 :
    capturePhoto ⟨true, true, true, 1280, 720⟩ 400 300 =
      some ⟨160, 0, 960, 720⟩ := by
  simp only [capturePhoto, captureCrop]
  norm_num

/-- Claim C4 evaluation: with the video reporting `vidW = 0`, `vidH = 480`
and all refs available, `capturePhoto` does NOT reject the frame: it takes
the taller-source branch and succeeds with the degenerate crop rectangle
`srcX = 0, srcY = 240, srcW = 0, srcH = 0` (the source has no zero-dimension
guard before the aspect-ratio division; at this input no division by zero
occurs, so exact rational arithmetic agrees with JavaScript numbers). -/
theorem capturePhoto_zero_width_not_rejected :
    capturePhoto ⟨true, true, true, 0, 480⟩ 600 450 =
      some ⟨0, 240, 0, 0⟩ := by
  simp only [capturePhoto, captureCrop]
  norm_num

/-- Claim C2: for a three-image sequence the page width is exactly
`max(scaledWidths) + 2 * marginH` and the page height is exactly
`sum(scaledHeights) + marginV * 4 + scaledHeights[0] / 2`. -/
theorem generatePdf_page_size (sF cF mH mV : ℚ) (i1 i2 i3 : LoadedImage)
    (hw1 : 0 < i1.width) (hh1 : 0 < i1.height) (hw2 : 0 < i2.width)
    (hh2 : 0 < i2.height) (hw3 : 0 < i3.width) (hh3 : 0 < i3.height) :
    ∃ doc, generatePdf sF cF mH mV [i1, i2, i3] = Except.ok doc ∧
      doc.pageWidth =
        max (max (scaledDims cF sF i1).1 (scaledDims cF sF i2).1)
          (scaledDims cF sF i3).1 + 2 * mH ∧
      doc.pageHeight =
        ((scaledDims cF sF i1).2 + (scaledDims cF sF i2).2 +
          (scaledDims cF sF i3).2) + mV * 4 + (scaledDims cF sF i1).2 / 2 := by
  refine ⟨_, rfl, ?_, ?_⟩ <;> simp only [generatePdf, scaledDims] <;> ring

/-- Claim C2 witness: page size at scale `1`, conversion `1`, margins `10`,
for three `4×3` images. -/
theorem generatePdf_page_size_witness :
    ((0 : ℚ) < 4 ∧ (0 : ℚ) < 3) ∧
    (∃ doc, generatePdf 1 1 10 10
        [⟨0, 4, 3⟩, ⟨1, 4, 3⟩, ⟨2, 4, 3⟩] = Except.ok doc ∧
      doc.pageWidth =
        max (max (scaledDims 1 1 ⟨0, 4, 3⟩).1 (scaledDims 1 1 ⟨1, 4, 3⟩).1)
          (scaledDims 1 1 ⟨2, 4, 3⟩).1 + 2 * 10 ∧
      doc.pageHeight =
        ((scaledDims 1 1 ⟨0, 4, 3⟩).2 + (scaledDims 1 1 ⟨1, 4, 3⟩).2 +
          (scaledDims 1 1 ⟨2, 4, 3⟩).2) + 10 * 4 + (scaledDims 1 1 ⟨0, 4, 3⟩).2 / 2) :=
  ⟨by norm_num,
   generatePdf_page_size 1 1 10 10 ⟨0, 4, 3⟩ ⟨1, 4, 3⟩ ⟨2, 4, 3⟩
     (by norm_num) (by norm_num) (by norm_num) (by norm_num)
     (by norm_num) (by norm_num)⟩

/-- Claim C3: the three placements are stacked top to bottom, the first at
`y = marginV`, each next at `previous.y + previous.height + marginV`, and
every placement is horizontally centred within the widest placed width:
`x = marginH + (maxWidth - placedWidth) / 2`. -/
theorem generatePdf_placement_positions (sF cF mH mV : ℚ) (i1 i2 i3 : LoadedImage) :
    ∃ doc p1 p2 p3,
      generatePdf sF cF mH mV [i1, i2, i3] = Except.ok doc ∧
      doc.placements = [p1, p2, p3] ∧
      p1.y = mV ∧ p2.y = p1.y + p1.h + mV ∧ p3.y = p2.y + p2.h + mV ∧
      p1.x = mH + (max (max p1.w p2.w) p3.w - p1.w) / 2 ∧
      p2.x = mH + (max (max p1.w p2.w) p3.w - p2.w) / 2 ∧
      p3.x = mH + (max (max p1.w p2.w) p3.w - p3.w) / 2 := by
  refine ⟨_, _, _, _, rfl, rfl, ?_, ?_, ?_, ?_, ?_, ?_⟩ <;> rfl

/-- Claim C5: the layout called with any number of images other than three
fails with `IncompleteInput` and produces no document. -/
theorem generatePdf_incomplete_input (sF cF mH mV : ℚ) (images : List LoadedImage)
    (hlen : images.length ≠ 3) :
    generatePdf sF cF mH mV images = Except.error LayoutError.IncompleteInput := by
  match images with
  | [] => rfl
  | [_] => rfl
  | [_, _] => rfl
  | [_, _, _] => exact absurd rfl hlen
  | _ :: _ :: _ :: _ :: _ => rfl

/-- Claim C5 witness: two images yield `IncompleteInput`. -/
theorem generatePdf_incomplete_input_witness :
    ([⟨0, 4, 3⟩, ⟨1, 4, 3⟩] : List LoadedImage).length ≠ 3 ∧
    generatePdf 1 1 1 1 [⟨0, 4, 3⟩, ⟨1, 4, 3⟩] =
      Except.error LayoutError.IncompleteInput :=
  ⟨by decide, generatePdf_incomplete_input 1 1 1 1 _ (by decide)⟩

/-- Helper: every intermediate sequence reached by folding `captureStep` has
grown by at most one element per processed capture result. -/
lemma length_le_of_mem_scanl (results : List (Option ℕ)) (init : List ℕ)
    (s : List ℕ) (hs : s ∈ List.scanl captureStep init results) :
    s.length ≤ init.length + results.length := by
  induction results generalizing init with
  | nil =>
    simp only [List.scanl, List.mem_singleton] at hs
    simp [hs]
  | cons r rs ih =>
    simp only [List.scanl, List.mem_cons] at hs
    rcases hs with h | h
    · simp [h]
    · have hrec := ih (captureStep init r) h
      have hstep : (captureStep init r).length ≤ init.length + 1 := by
        cases r <;> simp [captureStep]
      simp only [List.length_cons] at hrec ⊢
      omega

/-- Claim C6: over a session of exactly three capture iterations the photo
sequence starts empty and its length never exceeds three, and the
auto-generate effect invokes the layout engine only when the sequence
length is exactly three. -/
theorem photoSequence_invariant (results : List (Option ℕ))
    (hlen : results.length = 3) :
    (sessionStates results).head? = some [] ∧
    (∀ s ∈ sessionStates results, s.length ≤ 3) ∧
    (∀ (loadDims : ℕ → ℚ × ℚ) (photos : List ℕ) (pdfUrl : Option ℕ)
        (doc : Except LayoutError PageDocument),
        pdfAutoEffect loadDims photos pdfUrl = some doc → photos.length = 3) := by
  refine ⟨?_, ?_, ?_⟩
  · cases results <;> rfl
  · intro s hs
    have h := length_le_of_mem_scanl results [] s hs
    simp only [List.length_nil, Nat.zero_add, hlen] at h
    exact h
  · intro loadDims photos pdfUrl doc h
    unfold pdfAutoEffect at h
    split_ifs at h with hc
    exact hc.1

/-- Claim C6 witness: three successful captures. -/
theorem photoSequence_invariant_witness :
    ([some 0, some 1, some 2] : List (Option ℕ)).length = 3 ∧
    ((sessionStates [some 0, some 1, some 2]).head? = some [] ∧
     (∀ s ∈ sessionStates [some 0, some 1, some 2], s.length ≤ 3) ∧
     (∀ (loadDims : ℕ → ℚ × ℚ) (photos : List ℕ) (pdfUrl : Option ℕ)
        (doc : Except LayoutError PageDocument),
        pdfAutoEffect loadDims photos pdfUrl = some doc → photos.length = 3)) :=
  ⟨by decide, photoSequence_invariant [some 0, some 1, some 2] (by decide)⟩

/-- Claim C7: each placed image keeps the width-to-height ratio of its
source pixels: conversion and scale factors cancel in the ratio. -/
theorem generatePdf_preserves_aspect (sF cF mH mV : ℚ) (i1 i2 i3 : LoadedImage)
    (hs : 0 < sF) (hc : 0 < cF)
    (hh1 : 0 < i1.height) (hh2 : 0 < i2.height) (hh3 : 0 < i3.height) :
    ∃ doc, generatePdf sF cF mH mV [i1, i2, i3] = Except.ok doc ∧
      doc.placements.map (fun p => p.w / p.h) =
        [i1.width / i1.height, i2.width / i2.height, i3.width / i3.height] := by
  refine ⟨_, rfl, ?_⟩
  simp only [generatePdf, scaledDims, List.map_cons, List.map_nil]
  have e : ∀ w h : ℚ, 0 < h → w * cF * sF / (h * cF * sF) = w / h := by
    intro w h hh
    field_simp
    ring
  rw [e _ _ hh1, e _ _ hh2, e _ _ hh3]

/-- Claim C7 witness: ratio preservation at scale `1/2`, conversion `1`,
margins `10`, with `4×3`, `8×2` and `5×5` images. -/
theorem generatePdf_preserves_aspect_witness :
    ((0 : ℚ) < 1 / 2 ∧ (0 : ℚ) < 1 ∧ (0 : ℚ) < 3 ∧ (0 : ℚ) < 2 ∧ (0 : ℚ) < 5) ∧
    (∃ doc, generatePdf (1 / 2) 1 10 10
        [⟨0, 4, 3⟩, ⟨1, 8, 2⟩, ⟨2, 5, 5⟩] = Except.ok doc ∧
      doc.placements.map (fun p => p.w / p.h) =
        [(4 : ℚ) / 3, (8 : ℚ) / 2, (5 : ℚ) / 5]) :=
  ⟨by norm_num,
   generatePdf_preserves_aspect (1 / 2) 1 10 10 ⟨0, 4, 3⟩ ⟨1, 8, 2⟩ ⟨2, 5, 5⟩
     (by norm_num) (by norm_num) (by norm_num) (by norm_num) (by norm_num)⟩

/-- Claim C9: when the decorative bottom image has not loaded, the layout
still produces a document holding exactly the three photo placements, with
the same page size and the same photo placements as when it is present. -/
theorem generatePdfWithBottom_missing_asset (p1 p2 p3 b : ℕ) :
    ∃ doc docB,
      generatePdfWithBottom [p1, p2, p3] none = Except.ok doc ∧
      generatePdfWithBottom [p1, p2, p3] (some b) = Except.ok docB ∧
      doc.placements.length = 3 ∧
      doc.placements.map Placement.data = [p1, p2, p3] ∧
      doc.pageWidth = docB.pageWidth ∧
      doc.pageHeight = docB.pageHeight ∧
      docB.placements.take 3 = doc.placements := by
  exact ⟨_, _, rfl, rfl, rfl, rfl, rfl, rfl, rfl⟩

/-- Claim C10: for a three-image input with positive pixel dimensions every
placed rectangle lies inside the page (`marginH ≤ x`,
`x + width ≤ pageWidth`, `marginV ≤ y`, `y + height ≤ pageHeight`),
consecutive placements are separated vertically by exactly `marginV`, and
the three vertical intervals are pairwise disjoint. -/
theorem generatePdf_geometry (sF cF mH mV : ℚ) (i1 i2 i3 : LoadedImage)
    (hs : 0 < sF) (hc : 0 < cF) (hmh : 0 ≤ mH) (hmv : 0 ≤ mV)
    (hw1 : 0 < i1.width) (hh1 : 0 < i1.height)
    (hw2 : 0 < i2.width) (hh2 : 0 < i2.height)
    (hw3 : 0 < i3.width) (hh3 : 0 < i3.height) :
    ∃ doc, generatePdf sF cF mH mV [i1, i2, i3] = Except.ok doc ∧
      (∀ p ∈ doc.placements,
        mH ≤ p.x ∧ p.x + p.w ≤ doc.pageWidth ∧
        mV ≤ p.y ∧ p.y + p.h ≤ doc.pageHeight) ∧
      List.Chain' (fun p q => q.y = p.y + p.h + mV) doc.placements ∧
      doc.placements.Pairwise (fun p q => p.y + p.h ≤ q.y) := by
  have hW1 : 0 < i1.width * cF * sF := by positivity
  have hW2 : 0 < i2.width * cF * sF := by positivity
  have hW3 : 0 < i3.width * cF * sF := by positivity
  have hH1 : 0 < i1.height * cF * sF := by positivity
  have hH2 : 0 < i2.height * cF * sF := by positivity
  have hH3 : 0 < i3.height * cF * sF := by positivity
  have hm1 : i1.width * cF * sF ≤
      max (max (i1.width * cF * sF) (i2.width * cF * sF)) (i3.width * cF * sF) :=
    le_trans (le_max_left _ _) (le_max_left _ _)
  have hm2 : i2.width * cF * sF ≤
      max (max (i1.width * cF * sF) (i2.width * cF * sF)) (i3.width * cF * sF) :=
    le_trans (le_max_right _ _) (le_max_left _ _)
  have hm3 : i3.width * cF * sF ≤
      max (max (i1.width * cF * sF) (i2.width * cF * sF)) (i3.width * cF * sF) :=
    le_max_right _ _
  refine ⟨_, rfl, ?_, ?_, ?_⟩
  · intro p hp
    simp only [generatePdf, scaledDims, List.mem_cons, List.not_mem_nil, or_false] at hp
    rcases hp with rfl | rfl | rfl <;>
      refine ⟨?_, ?_, ?_, ?_⟩ <;> simp only [generatePdf, scaledDims] <;> linarith
  · simp only [generatePdf, scaledDims, List.chain'_cons, List.chain'_singleton,
      and_true]
  · simp only [generatePdf, scaledDims, List.pairwise_cons, List.mem_cons,
      List.mem_singleton, List.not_mem_nil, forall_eq_or_imp, forall_eq,
      false_implies, implies_true, and_true]
    repeat' apply And.intro
    all_goals first
    | trivial
    | exact List.Pairwise.nil
    | linarith

/-- Claim C10 witness: geometry invariants at scale `1`, conversion `1`,
margins `10`, for `4×3`, `8×2` and `5×5` images. -/
theorem generatePdf_geometry_witness :
    ((0 : ℚ) < 1 ∧ (0 : ℚ) ≤ 10 ∧ (0 : ℚ) < 4 ∧ (0 : ℚ) < 3 ∧ (0 : ℚ) < 8 ∧
      (0 : ℚ) < 2 ∧ (0 : ℚ) < 5) ∧
    (∃ doc, generatePdf 1 1 10 10
        [⟨0, 4, 3⟩, ⟨1, 8, 2⟩, ⟨2, 5, 5⟩] = Except.ok doc ∧
      (∀ p ∈ doc.placements,
        (10 : ℚ) ≤ p.x ∧ p.x + p.w ≤ doc.pageWidth ∧
        (10 : ℚ) ≤ p.y ∧ p.y + p.h ≤ doc.pageHeight) ∧
      List.Chain' (fun p q => q.y = p.y + p.h + 10) doc.placements ∧
      doc.placements.Pairwise (fun p q => p.y + p.h ≤ q.y)) :=
  ⟨by norm_num,
   generatePdf_geometry 1 1 10 10 ⟨0, 4, 3⟩ ⟨1, 8, 2⟩ ⟨2, 5, 5⟩
     (by norm_num) (by norm_num) (by norm_num) (by norm_num) (by norm_num)
     (by norm_num) (by norm_num) (by norm_num) (by norm_num) (by norm_num)⟩
